import Mathlib

/-!
Shallow embedding of the fitness-calculator repository: two calculator
instances (a BMI calculator and a TDEE calculator) sharing the same
unit-conversion, input-validation, toggle and persistence logic.

JavaScript numbers are modelled as exact rationals; the `number | ''` cell
type of the source is `Option ℚ` (with `none` for the empty string), and the
input-boundary model additionally tracks NaN with the `JValue` type.
`Math.round`, `Math.floor` and the `%` operator of JavaScript are embedded
as `jround`, `jfloor` and `jmod` below.
-/

namespace FitnessCalc

/-- JavaScript Math.floor on a rational value. -/
def jfloor (x : ℚ) : ℤ := ⌊x⌋

/-- JavaScript Math.round: round half toward positive infinity. -/
def jround (x : ℚ) : ℤ := jfloor (x + 1/2)

/-- JavaScript truncation toward zero, used by the % operator. -/
def jtrunc (x : ℚ) : ℤ := if 0 ≤ x then jfloor x else -jfloor (-x)

/-- JavaScript remainder operator a % b (sign follows the dividend). -/
def jmod (a b : ℚ) : ℚ := a - b * (jtrunc (a / b) : ℚ)

/-- Conversion factor LBS_TO_KG from both source files. -/
def LBS_TO_KG : ℚ := 0.453592

/-- Conversion factor KG_TO_LBS from both source files. -/
def KG_TO_LBS : ℚ := 2.20462

/-- Conversion factor IN_TO_CM from both source files. -/
def IN_TO_CM : ℚ := 2.54

/-- Conversion factor CM_TO_IN from both source files. -/
def CM_TO_IN : ℚ := 0.393701

/-- Conversion factor FT_TO_IN from both source files. -/
def FT_TO_IN : ℚ := 12

/-- The type Units of the source, named UnitSystem in the spec. -/
inductive UnitSystem where
  | metric
  | imperial
deriving DecidableEq

/-- Raw input state of the BMI calculator instance (interface
BMICalculatorState plus the live input cells of the component). -/
structure BMICalculatorState where
  weight : Option ℚ
  heightCm : Option ℚ
  heightFt : Option ℚ
  heightIn : Option ℚ
  units : UnitSystem
deriving DecidableEq

/-- Raw input state of the TDEE calculator instance (interface
FitnessCalculatorState). Gender and activity level are kept as strings so
that the behaviour on values outside the enums can be stated. -/
structure FitnessCalculatorState where
  age : Option ℚ
  gender : String
  weight : Option ℚ
  height : Option ℚ
  activityLevel : String
  units : UnitSystem
  heightIn : Option ℚ
  heightFt : Option ℚ
deriving DecidableEq

/-- Canonical weight in kilograms of the BMI instance (the weightKg
useMemo of BMICalculator.tsx). -/
def bmiWeightKg (s : BMICalculatorState) : Option ℚ :=
  match s.weight with
  | none => none
  | some w => some (if s.units = .metric then w else w * LBS_TO_KG)

/-- Canonical height in centimeters of the BMI instance (the heightCm
useMemo of BMICalculator.tsx). -/
def bmiHeightCm (s : BMICalculatorState) : Option ℚ :=
  if s.units = .metric then s.heightCm
  else if s.heightFt = none ∧ s.heightIn = none then none
  else some ((s.heightFt.getD 0 * FT_TO_IN + s.heightIn.getD 0) * IN_TO_CM)

/-- BMI category keys used by calculateBMI. -/
inductive BMICategory where
  | underweight
  | normalWeight
  | overweight
  | obesity
deriving DecidableEq

/-- Category selection applied to the rounded BMI in calculateBMI. -/
def bmiCategory (b : ℚ) : BMICategory :=
  if b < 18.5 then .underweight
  else if b < 25 then .normalWeight
  else if b < 30 then .overweight
  else .obesity

/-- The calculateBMI function of BMICalculator.tsx: absent result when the
canonical weight or height is absent or the height is zero, otherwise the
BMI rounded to one decimal together with its category. -/
def calculateBMI (weightKg heightCm : Option ℚ) : Option (ℚ × BMICategory) :=
  match weightKg, heightCm with
  | some w, some h =>
    if h = 0 then none
    else
      let heightInMeters := h / 100
      let roundedBmi : ℚ := (jround (w / (heightInMeters * heightInMeters) * 10) : ℚ) / 10
      some (roundedBmi, bmiCategory roundedBmi)
  | _, _ => none

/-- Weight conversion kg to displayed lb used inside toggleUnits. -/
def lbOfKg (w : ℚ) : ℚ := (jround (w * KG_TO_LBS * 10) : ℚ) / 10

/-- Weight conversion lb to displayed kg used inside toggleUnits. -/
def kgOfLb (w : ℚ) : ℚ := (jround (w * LBS_TO_KG * 10) : ℚ) / 10

/-- Feet component produced by the metric to imperial toggle conversion. -/
def feetOfCm (hc : ℚ) : ℚ := (jfloor (hc * CM_TO_IN / FT_TO_IN) : ℚ)

/-- Inches component produced by the metric to imperial toggle conversion. -/
def inchesOfCm (hc : ℚ) : ℚ := (jround (jmod (hc * CM_TO_IN) FT_TO_IN * 10) : ℚ) / 10

/-- Centimeter value produced by the imperial to metric toggle conversion. -/
def cmOfFtIn (ft inches : ℚ) : ℚ := (jround ((ft * FT_TO_IN + inches) * IN_TO_CM) : ℚ)

/-- The toggleUnits handler of BMICalculator.tsx as a pure state map. -/
def toggleUnits (s : BMICalculatorState) : BMICalculatorState :=
  match s.units with
  | .metric =>
    let w := s.weight.map lbOfKg
    match s.heightCm with
    | some hc =>
      { weight := w, heightCm := none, heightFt := some (feetOfCm hc),
        heightIn := some (inchesOfCm hc), units := .imperial }
    | none => { s with weight := w, units := .imperial }
  | .imperial =>
    let w := s.weight.map kgOfLb
    let ft := s.heightFt.getD 0
    let inches := s.heightIn.getD 0
    if 0 < ft ∨ 0 < inches then
      { weight := w, heightCm := some (cmOfFtIn ft inches), heightFt := none,
        heightIn := none, units := .metric }
    else
      { s with weight := w, units := .metric }

/-- The toggleUnits handler of FitnessCalculator (TDEE instance); identical
conversion logic, and the age, gender and activity fields are untouched. -/
def toggleUnitsTDEE (s : FitnessCalculatorState) : FitnessCalculatorState :=
  match s.units with
  | .metric =>
    let w := s.weight.map lbOfKg
    match s.height with
    | some hc =>
      { s with
        weight := w
        height := none
        heightFt := some (feetOfCm hc)
        heightIn := some (inchesOfCm hc)
        units := .imperial }
    | none => { s with weight := w, units := .imperial }
  | .imperial =>
    let w := s.weight.map kgOfLb
    let ft := s.heightFt.getD 0
    let inches := s.heightIn.getD 0
    if 0 < ft ∨ 0 < inches then
      { s with
        weight := w
        height := some (cmOfFtIn ft inches)
        heightFt := none
        heightIn := none
        units := .metric }
    else
      { s with weight := w, units := .metric }

/-- Canonical weight in kilograms of the TDEE instance. -/
def tdeeWeightKg (s : FitnessCalculatorState) : Option ℚ :=
  match s.weight with
  | none => none
  | some w => some (if s.units = .metric then w else w * LBS_TO_KG)

/-- Canonical height in centimeters of the TDEE instance. -/
def tdeeHeightCm (s : FitnessCalculatorState) : Option ℚ :=
  if s.units = .metric then s.height
  else if s.heightFt = none ∧ s.heightIn = none then none
  else some ((s.heightFt.getD 0 * FT_TO_IN + s.heightIn.getD 0) * IN_TO_CM)

/-- The activityFactors record of FitnessCalculator, as a partial map so
that the undefined lookup on a key outside the five levels is visible. -/
def activityFactors (a : String) : Option ℚ :=
  if a = "sedentary" then some 1.2
  else if a = "light" then some 1.375
  else if a = "moderate" then some 1.55
  else if a = "active" then some 1.725
  else if a = "extra" then some 1.9
  else none

/-- Result of calculateTDEE: absent when a required input is missing, NaN
when the activity-factor lookup is undefined (bmr * undefined in the
source), or a rounded integer value. -/
inductive TdeeResult where
  | absent
  | nan
  | val (n : ℤ)
deriving DecidableEq

/-- The calculateTDEE function of FitnessCalculator: guard on absent age,
weight or height, Mifflin St Jeor BMR chosen by an exact string comparison
with male, then rounding of bmr times the activity factor. -/
def calculateTDEE (age weightKg heightCm : Option ℚ) (gender activityLevel : String) :
    TdeeResult :=
  match age, weightKg, heightCm with
  | some a, some w, some h =>
    let bmr : ℚ :=
      if gender = "male" then 10 * w + 6.25 * h - 5 * a + 5
      else 10 * w + 6.25 * h - 5 * a - 161
    match activityFactors activityLevel with
    | some f => .val (jround (bmr * f))
    | none => .nan
  | _, _, _ => .absent

/-- A numeric input cell as JavaScript sees it: the empty string, NaN, or a
finite number. -/
inductive JValue where
  | empty
  | nan
  | num (q : ℚ)
deriving DecidableEq

/-- Decision procedure for the test of the pattern constraining numeric
input, anchored digits, an optional dot, then digits. -/
def numericPattern (cs : List Char) : Bool :=
  let rest := cs.dropWhile Char.isDigit
  match rest with
  | [] => true
  | c :: rest2 => c = '.' && rest2.all Char.isDigit

/-- Value of a digit string (the integer part or fraction digits). -/
def digitsVal (cs : List Char) : ℕ :=
  cs.foldl (fun a c => 10 * a + (c.toNat - 48)) 0

/-- JavaScript Number() restricted to nonempty strings accepted by the
numeric pattern: NaN on a lone dot, else the denoted decimal. -/
def parseNumber (cs : List Char) : JValue :=
  let d1 := cs.takeWhile Char.isDigit
  let rest := cs.dropWhile Char.isDigit
  let d2 := match rest with
    | c :: r => if c = '.' then r else []
    | [] => []
  if d1.isEmpty && d2.isEmpty then .nan
  else .num ((digitsVal d1 : ℚ) + (digitsVal d2 : ℚ) / 10 ^ d2.length)

/-- The handleInputChange handler shared by both instances: empty string
clears the cell, a string matching the numeric pattern is stored as a
number, anything else leaves the cell unchanged. -/
def handleInputChange (cur : JValue) (value : String) : JValue :=
  if value = "" then .empty
  else if numericPattern value.data then parseNumber value.data
  else cur

/-- String form of a unit system as serialized to storage. -/
def unitSystemString : UnitSystem → String
  | .metric => "metric"
  | .imperial => "imperial"

/-- Persisted record of the BMI instance; every field is optionally absent
as it may be missing from a parsed record. -/
structure StoredBMIState where
  weight : Option (Option ℚ)
  heightCm : Option (Option ℚ)
  heightFt : Option (Option ℚ)
  heightIn : Option (Option ℚ)
  units : Option String
deriving DecidableEq

/-- The saveBMIState function: serializes every field of the state. -/
def saveBMIState (s : BMICalculatorState) : StoredBMIState :=
  { weight := some s.weight, heightCm := some s.heightCm,
    heightFt := some s.heightFt, heightIn := some s.heightIn,
    units := some (unitSystemString s.units) }

/-- The loadBMIState function: defaults for a missing record, per-field
defaults for missing fields, and metric for any invalid unit string. -/
def loadBMIState (stored : Option StoredBMIState) : BMICalculatorState :=
  match stored with
  | none =>
    { weight := none, heightCm := none, heightFt := none, heightIn := none,
      units := .metric }
  | some p =>
    { weight := p.weight.getD none, heightCm := p.heightCm.getD none,
      heightFt := p.heightFt.getD none, heightIn := p.heightIn.getD none,
      units := if p.units = some ("imperial") then .imperial else .metric }

/-- Persisted record of the TDEE instance. -/
structure StoredFitnessState where
  age : Option (Option ℚ)
  gender : Option String
  weight : Option (Option ℚ)
  height : Option (Option ℚ)
  activityLevel : Option String
  units : Option String
  heightIn : Option (Option ℚ)
  heightFt : Option (Option ℚ)
deriving DecidableEq

/-- The saveState function of FitnessCalculator. -/
def saveState (s : FitnessCalculatorState) : StoredFitnessState :=
  { age := some s.age, gender := some s.gender, weight := some s.weight,
    height := some s.height, activityLevel := some s.activityLevel,
    units := some (unitSystemString s.units), heightIn := some s.heightIn,
    heightFt := some s.heightFt }

/-- The loadState function of FitnessCalculator: null coalescing per field,
so a present gender or activity string is restored unchanged even when it
is outside the enum; only the unit string is validated. -/
def loadState (stored : Option StoredFitnessState) : FitnessCalculatorState :=
  match stored with
  | none =>
    { age := none, gender := "male", weight := none, height := none,
      activityLevel := "sedentary", units := .metric, heightIn := none,
      heightFt := none }
  | some p =>
    { age := p.age.getD none, gender := p.gender.getD ("male"),
      weight := p.weight.getD none, height := p.height.getD none,
      activityLevel := p.activityLevel.getD ("sedentary"),
      units := if p.units = some ("imperial") then .imperial else .metric,
      heightIn := p.heightIn.getD none, heightFt := p.heightFt.getD none }

/-! ### Elementary facts about the embedded JavaScript primitives -/

theorem jfloor_le (x : ℚ) : (jfloor x : ℚ) ≤ x := Int.floor_le x

theorem lt_jfloor_add_one (x : ℚ) : x < (jfloor x : ℚ) + 1 := Int.lt_floor_add_one x

theorem jfloor_eq {z : ℤ} {x : ℚ} (h1 : (z : ℚ) ≤ x) (h2 : x < z + 1) : jfloor x = z := by
  rw [jfloor, Int.floor_eq_iff]
  exact ⟨h1, by exact_mod_cast h2⟩

theorem jround_le (x : ℚ) : (jround x : ℚ) ≤ x + 1/2 := jfloor_le (x + 1/2)

theorem lt_jround (x : ℚ) : x - 1/2 < (jround x : ℚ) := by
  have h := lt_jfloor_add_one (x + 1/2)
  rw [jround]
  linarith

theorem jround_eq {z : ℤ} {x : ℚ} (h1 : (z : ℚ) ≤ x + 1/2) (h2 : x + 1/2 < z + 1) :
    jround x = z := jfloor_eq h1 h2

theorem jmod_eq_of_nonneg {a b : ℚ} (ha : 0 ≤ a) (hb : 0 < b) :
    jmod a b = a - b * (jfloor (a / b) : ℚ) := by
  rw [jmod, jtrunc, if_pos (div_nonneg ha hb.le)]

theorem jmod_nonneg {a b : ℚ} (ha : 0 ≤ a) (hb : 0 < b) : 0 ≤ jmod a b := by
  rw [jmod_eq_of_nonneg ha hb]
  have h1 : (jfloor (a / b) : ℚ) ≤ a / b := jfloor_le _
  have h2 : b * (jfloor (a / b) : ℚ) ≤ b * (a / b) := by
    exact mul_le_mul_of_nonneg_left h1 hb.le
  have h3 : b * (a / b) = a := by field_simp
  linarith

theorem jmod_lt {a b : ℚ} (ha : 0 ≤ a) (hb : 0 < b) : jmod a b < b := by
  rw [jmod_eq_of_nonneg ha hb]
  have h1 : a / b < (jfloor (a / b) : ℚ) + 1 := lt_jfloor_add_one _
  have h2 : b * (a / b) < b * ((jfloor (a / b) : ℚ) + 1) := by
    exact mul_lt_mul_of_pos_left h1 hb
  have h3 : b * (a / b) = a := by field_simp
  nlinarith

/-! ### Claim theorems -/

/-- C1: with both canonical inputs present and a nonzero height, the BMI
instance displays round(weightKg / (heightCm/100)^2 * 10) / 10 together with
the category given by the inclusive-lower-bound thresholds 18.5, 25 and 30,
and weight 70 kg with height 175 cm yields 22.9, category normalWeight. -/
theorem claim1_bmi_formula (w h : ℚ) (hh : h ≠ 0) :
    calculateBMI (some w) (some h) =
      some ((jround (w / (h/100 * (h/100)) * 10) : ℚ) / 10,
        bmiCategory ((jround (w / (h/100 * (h/100)) * 10) : ℚ) / 10)) ∧
    (∀ b : ℚ,
      (b < 18.5 → bmiCategory b = .underweight) ∧
      (18.5 ≤ b → b < 25 → bmiCategory b = .normalWeight) ∧
      (25 ≤ b → b < 30 → bmiCategory b = .overweight) ∧
      (30 ≤ b → bmiCategory b = .obesity)) ∧
    calculateBMI (some 70) (some 175) = some (22.9, .normalWeight) := by
  refine ⟨by simp [calculateBMI, hh], ?_, ?_⟩
  · intro b
    refine ⟨fun h1 => by simp [bmiCategory, h1], fun h1 h2 => ?_, fun h1 h2 => ?_, fun h1 => ?_⟩
    · rw [bmiCategory, if_neg (by linarith), if_pos h2]
    · rw [bmiCategory, if_neg (by linarith), if_neg (by linarith), if_pos h2]
    · rw [bmiCategory, if_neg (by linarith), if_neg (by linarith), if_neg (by linarith)]
  · have e : jround ((70 : ℚ) / (175/100 * (175/100)) * 10) = 229 :=
      jround_eq (by norm_num) (by norm_num)
    simp only [calculateBMI, if_neg (by norm_num : (175 : ℚ) ≠ 0)]
    rw [e]
    norm_num [bmiCategory]

/-- Witness for C1 at weight 70 kg, height 175 cm. -/
theorem claim1_witness :
    calculateBMI (some 70) (some 175) = some (22.9, .normalWeight) :=
  (claim1_bmi_formula 70 175 (by norm_num)).2.2

/-- C2: with age, weight and height present the TDEE instance uses the
Mifflin St Jeor BMR (male +5, anything else -161), multiplies by the
activity factor of the selected level and rounds; the five factors are
1.2, 1.375, 1.55, 1.725 and 1.9, and age 30, male, 80 kg, 180 cm at
moderate activity yields 2759. -/
theorem claim2_tdee_formula (a w h f : ℚ) (act : String)
    (hf : activityFactors act = some f) :
    calculateTDEE (some a) (some w) (some h) "male" act =
      .val (jround ((10 * w + 6.25 * h - 5 * a + 5) * f)) ∧
    calculateTDEE (some a) (some w) (some h) "female" act =
      .val (jround ((10 * w + 6.25 * h - 5 * a - 161) * f)) ∧
    (activityFactors ("sedentary") = some 1.2 ∧ activityFactors ("light") = some 1.375 ∧
     activityFactors ("moderate") = some 1.55 ∧ activityFactors ("active") = some 1.725 ∧
     activityFactors ("extra") = some 1.9) ∧
    calculateTDEE (some 30) (some 80) (some 180) "male" "moderate" = .val 2759 := by
  refine ⟨by simp [calculateTDEE, hf], by simp [calculateTDEE, hf], by simp [activityFactors], ?_⟩
  have e : jround ((10 * (80 : ℚ) + 6.25 * 180 - 5 * 30 + 5) * (1.55 : ℚ)) = 2759 :=
    jround_eq (by norm_num) (by norm_num)
  have hmod : activityFactors ("moderate") = some 1.55 := by simp [activityFactors]
  simp only [calculateTDEE, hmod]
  norm_num at e ⊢
  exact e

/-- Witness for C2 at the example input of the spec. -/
theorem claim2_witness :
    calculateTDEE (some 30) (some 80) (some 180) "male" "moderate" = .val 2759 :=
  (claim2_tdee_formula 30 80 180 1.55 ("moderate") (by simp [activityFactors])).2.2.2

/-- C3 counterexample: the TDEE instance does NOT treat a zero height like
incomplete input; with age 30, weight 70 kg and height 0 cm it produces a
present result (666), while the claim requires an absent result. -/
theorem claim3_counterexample :
    calculateTDEE (some 30) (some 70) (some 0) "male" "sedentary" = .val 666 ∧
    TdeeResult.val 666 ≠ TdeeResult.absent := by
  constructor
  · have e : jround ((10 * (70 : ℚ) + 6.25 * 0 - 5 * 30 + 5) * (1.2 : ℚ)) = 666 :=
      jround_eq (by norm_num) (by norm_num)
    have hsed : activityFactors ("sedentary") = some 1.2 := by simp [activityFactors]
    simp only [calculateTDEE, hsed]
    norm_num at e ⊢
    exact e
  · simp

/-- C3 amended: an absent required canonical input yields an absent result
in both instances, and a zero height yields an absent result in the BMI
instance; the TDEE instance has no zero-height guard (see the
counterexample), and both embedded calculators are total functions, so no
exception can be raised. -/
theorem claim3_amended :
    (∀ wk hc : Option ℚ, wk = none ∨ hc = none ∨ hc = some 0 →
      calculateBMI wk hc = none) ∧
    (∀ (a wk hc : Option ℚ) (g act : String), a = none ∨ wk = none ∨ hc = none →
      calculateTDEE a wk hc g act = .absent) := by
  constructor
  · rintro wk hc (rfl | rfl | rfl)
    · cases hc <;> simp [calculateBMI]
    · cases wk <;> simp [calculateBMI]
    · cases wk <;> simp [calculateBMI]
  · rintro a wk hc g act (rfl | rfl | rfl)
    · cases wk <;> cases hc <;> simp [calculateTDEE]
    · cases a <;> cases hc <;> simp [calculateTDEE]
    · cases a <;> cases wk <;> simp [calculateTDEE]

/-- Witness for C3 amended: absent weight in the BMI instance, absent age
in the TDEE instance, and a zero height in the BMI instance. -/
theorem claim3_witness :
    calculateBMI none (some 175) = none ∧
    calculateBMI (some 70) (some 0) = none ∧
    calculateTDEE none (some 70) (some 175) "male" "sedentary" = .absent :=
  ⟨claim3_amended.1 none (some 175) (Or.inl rfl),
   claim3_amended.1 (some 70) (some 0) (Or.inr (Or.inr rfl)),
   claim3_amended.2 none (some 70) (some 175) "male" "sedentary" (Or.inl rfl)⟩

/-- C4: the unit toggle of both instances converts a present weight with
round(kg * 2.20462 * 10)/10 resp. round(lb * 0.453592 * 10)/10, converts a
present metric height with feet = floor(cm * 0.393701 / 12) and inches =
round(((cm * 0.393701) mod 12) * 10)/10, converts an imperial height with
round((ft*12 + in) * 2.54) using 0 for absent components, and leaves the
metric height absent when both imperial components are absent or zero. -/
theorem claim4_toggle_conversions :
    (KG_TO_LBS = 2.20462 ∧ LBS_TO_KG = 0.453592 ∧ CM_TO_IN = 0.393701 ∧
     IN_TO_CM = 2.54 ∧ FT_TO_IN = 12) ∧
    (∀ (s : BMICalculatorState) (w : ℚ), s.units = .metric → s.weight = some w →
      (toggleUnits s).weight = some ((jround (w * KG_TO_LBS * 10) : ℚ) / 10)) ∧
    (∀ (s : BMICalculatorState) (hc : ℚ), s.units = .metric → s.heightCm = some hc →
      (toggleUnits s).heightFt = some ((jfloor (hc * CM_TO_IN / FT_TO_IN) : ℚ)) ∧
      (toggleUnits s).heightIn =
        some ((jround (jmod (hc * CM_TO_IN) FT_TO_IN * 10) : ℚ) / 10)) ∧
    (∀ (s : BMICalculatorState) (w : ℚ), s.units = .imperial → s.weight = some w →
      (toggleUnits s).weight = some ((jround (w * LBS_TO_KG * 10) : ℚ) / 10)) ∧
    (∀ s : BMICalculatorState, s.units = .imperial →
      0 ≤ s.heightFt.getD 0 → 0 ≤ s.heightIn.getD 0 →
      (¬(s.heightFt.getD 0 = 0 ∧ s.heightIn.getD 0 = 0) →
        (toggleUnits s).heightCm =
          some ((jround ((s.heightFt.getD 0 * FT_TO_IN + s.heightIn.getD 0) * IN_TO_CM) : ℚ))) ∧
      (s.heightFt.getD 0 = 0 → s.heightIn.getD 0 = 0 → s.heightCm = none →
        (toggleUnits s).heightCm = none)) ∧
    (∀ (s : FitnessCalculatorState) (w : ℚ), s.units = .metric → s.weight = some w →
      (toggleUnitsTDEE s).weight = some ((jround (w * KG_TO_LBS * 10) : ℚ) / 10)) ∧
    (∀ (s : FitnessCalculatorState) (hc : ℚ), s.units = .metric → s.height = some hc →
      (toggleUnitsTDEE s).heightFt = some ((jfloor (hc * CM_TO_IN / FT_TO_IN) : ℚ)) ∧
      (toggleUnitsTDEE s).heightIn =
        some ((jround (jmod (hc * CM_TO_IN) FT_TO_IN * 10) : ℚ) / 10)) ∧
    (∀ (s : FitnessCalculatorState) (w : ℚ), s.units = .imperial → s.weight = some w →
      (toggleUnitsTDEE s).weight = some ((jround (w * LBS_TO_KG * 10) : ℚ) / 10)) ∧
    (∀ s : FitnessCalculatorState, s.units = .imperial →
      0 ≤ s.heightFt.getD 0 → 0 ≤ s.heightIn.getD 0 →
      (¬(s.heightFt.getD 0 = 0 ∧ s.heightIn.getD 0 = 0) →
        (toggleUnitsTDEE s).height =
          some ((jround ((s.heightFt.getD 0 * FT_TO_IN + s.heightIn.getD 0) * IN_TO_CM) : ℚ))) ∧
      (s.heightFt.getD 0 = 0 → s.heightIn.getD 0 = 0 → s.height = none →
        (toggleUnitsTDEE s).height = none)) := by
  refine ⟨⟨rfl, rfl, rfl, rfl, rfl⟩, ?_, ?_, ?_, ?_, ?_, ?_, ?_, ?_⟩
  · rintro ⟨wf, cf, ff, nf, u⟩ w hu hw
    simp only at hu hw
    subst hu hw
    cases cf <;> simp [toggleUnits, lbOfKg]
  · rintro ⟨wf, cf, ff, nf, u⟩ hc hu hw
    simp only at hu hw
    subst hu hw
    simp [toggleUnits, feetOfCm, inchesOfCm]
  · rintro ⟨wf, cf, ff, nf, u⟩ w hu hw
    simp only at hu hw
    subst hu hw
    rw [toggleUnits]
    by_cases hcond : 0 < ff.getD 0 ∨ 0 < nf.getD 0
    · rw [if_pos hcond]; simp [kgOfLb]
    · rw [if_neg hcond]; simp [kgOfLb]
  · rintro ⟨wf, cf, ff, nf, u⟩ hu hf0 hn0
    obtain rfl : u = .imperial := hu
    have hf0 : 0 ≤ ff.getD 0 := hf0
    have hn0 : 0 ≤ nf.getD 0 := hn0
    constructor
    · intro hne
      have hne : ¬(ff.getD 0 = 0 ∧ nf.getD 0 = 0) := hne
      have hcond : 0 < ff.getD 0 ∨ 0 < nf.getD 0 := by
        rcases not_and_or.mp hne with h | h
        · exact Or.inl (lt_of_le_of_ne hf0 (Ne.symm h))
        · exact Or.inr (lt_of_le_of_ne hn0 (Ne.symm h))
      rw [toggleUnits, if_pos hcond]
      simp [cmOfFtIn]
    · intro h1 h2 hcm
      obtain rfl : cf = none := hcm
      have h1 : ff.getD 0 = 0 := h1
      have h2 : nf.getD 0 = 0 := h2
      rw [toggleUnits, if_neg (by simp [h1, h2])]
  · rintro ⟨af, gf, wf, cf, actf, u, nf, ff⟩ w hu hw
    simp only at hu hw
    subst hu hw
    cases cf <;> simp [toggleUnitsTDEE, lbOfKg]
  · rintro ⟨af, gf, wf, cf, actf, u, nf, ff⟩ hc hu hw
    simp only at hu hw
    subst hu hw
    simp [toggleUnitsTDEE, feetOfCm, inchesOfCm]
  · rintro ⟨af, gf, wf, cf, actf, u, nf, ff⟩ w hu hw
    simp only at hu hw
    subst hu hw
    rw [toggleUnitsTDEE]
    by_cases hcond : 0 < ff.getD 0 ∨ 0 < nf.getD 0
    · rw [if_pos hcond]; simp [kgOfLb]
    · rw [if_neg hcond]; simp [kgOfLb]
  · rintro ⟨af, gf, wf, cf, actf, u, nf, ff⟩ hu hf0 hn0
    obtain rfl : u = .imperial := hu
    have hf0 : 0 ≤ ff.getD 0 := hf0
    have hn0 : 0 ≤ nf.getD 0 := hn0
    constructor
    · intro hne
      have hne : ¬(ff.getD 0 = 0 ∧ nf.getD 0 = 0) := hne
      have hcond : 0 < ff.getD 0 ∨ 0 < nf.getD 0 := by
        rcases not_and_or.mp hne with h | h
        · exact Or.inl (lt_of_le_of_ne hf0 (Ne.symm h))
        · exact Or.inr (lt_of_le_of_ne hn0 (Ne.symm h))
      rw [toggleUnitsTDEE, if_pos hcond]
      simp [cmOfFtIn]
    · intro h1 h2 hcm
      obtain rfl : cf = none := hcm
      have h1 : ff.getD 0 = 0 := h1
      have h2 : nf.getD 0 = 0 := h2
      rw [toggleUnitsTDEE, if_neg (by simp [h1, h2])]

/-- Witness for C4: the metric to imperial direction at 70 kg and 175 cm in
the BMI instance, and the imperial to metric direction with both height
components absent in the TDEE instance. -/
theorem claim4_witness :
    (toggleUnits ⟨some 70, some 175, none, none, .metric⟩).weight =
      some ((jround ((70 : ℚ) * KG_TO_LBS * 10) : ℚ) / 10) ∧
    (toggleUnitsTDEE ⟨some 30, "male", some 150, none, "sedentary", .imperial,
        none, none⟩).height = none :=
  ⟨claim4_toggle_conversions.2.1 ⟨some 70, some 175, none, none, .metric⟩ 70 rfl rfl,
   (claim4_toggle_conversions.2.2.2.2.2.2.2.2
      ⟨some 30, "male", some 150, none, "sedentary", .imperial, none, none⟩
      rfl (by simp) (by simp)).2 (by simp) (by simp) rfl⟩

/-- C5 counterexample: an imperial to metric toggle with both height
components present but zero does not clear the imperial fields, so after
the toggle the state is metric while heightFt and heightIn still hold
values (the claim requires every imperial to metric toggle to clear both
fields). -/
theorem claim5_counterexample :
    (toggleUnits ⟨none, none, some 0, some 0, .imperial⟩).units = .metric ∧
    (toggleUnits ⟨none, none, some 0, some 0, .imperial⟩).heightFt = some 0 ∧
    (toggleUnits ⟨none, none, some 0, some 0, .imperial⟩).heightIn = some 0 := by
  have h : toggleUnits ⟨none, none, some 0, some 0, .imperial⟩ =
      ⟨none, none, some 0, some 0, .metric⟩ := by
    rw [toggleUnits]
    simp only [Option.getD_some]
    rw [if_neg (by norm_num)]
    rfl
  rw [h]
  exact ⟨rfl, rfl, rfl⟩

/-- C5 amended: every metric to imperial toggle leaves the metric height
field absent, and every imperial to metric toggle where some height
component is positive clears both imperial fields; when both components
are zero or absent the imperial fields are left unchanged, so a
zero-valued imperial representation can survive into metric mode. -/
theorem claim5_amended :
    (∀ s : BMICalculatorState, s.units = .metric → (toggleUnits s).heightCm = none) ∧
    (∀ s : BMICalculatorState, s.units = .imperial →
      (0 < s.heightFt.getD 0 ∨ 0 < s.heightIn.getD 0) →
      (toggleUnits s).heightFt = none ∧ (toggleUnits s).heightIn = none) ∧
    (∀ s : BMICalculatorState, s.units = .imperial →
      ¬(0 < s.heightFt.getD 0 ∨ 0 < s.heightIn.getD 0) →
      (toggleUnits s).heightFt = s.heightFt ∧ (toggleUnits s).heightIn = s.heightIn) ∧
    (∀ s : FitnessCalculatorState, s.units = .metric → (toggleUnitsTDEE s).height = none) ∧
    (∀ s : FitnessCalculatorState, s.units = .imperial →
      (0 < s.heightFt.getD 0 ∨ 0 < s.heightIn.getD 0) →
      (toggleUnitsTDEE s).heightFt = none ∧ (toggleUnitsTDEE s).heightIn = none) ∧
    (∀ s : FitnessCalculatorState, s.units = .imperial →
      ¬(0 < s.heightFt.getD 0 ∨ 0 < s.heightIn.getD 0) →
      (toggleUnitsTDEE s).heightFt = s.heightFt ∧
      (toggleUnitsTDEE s).heightIn = s.heightIn) := by
  refine ⟨?_, ?_, ?_, ?_, ?_, ?_⟩
  · rintro ⟨wf, cf, ff, nf, u⟩ hu
    simp only at hu
    subst hu
    cases cf <;> simp [toggleUnits]
  · rintro ⟨wf, cf, ff, nf, u⟩ hu hcond
    simp only at hu hcond ⊢
    subst hu
    rw [toggleUnits, if_pos hcond]
    exact ⟨rfl, rfl⟩
  · rintro ⟨wf, cf, ff, nf, u⟩ hu hcond
    simp only at hu hcond ⊢
    subst hu
    rw [toggleUnits, if_neg hcond]
    exact ⟨rfl, rfl⟩
  · rintro ⟨af, gf, wf, cf, actf, u, nf, ff⟩ hu
    simp only at hu
    subst hu
    cases cf <;> simp [toggleUnitsTDEE]
  · rintro ⟨af, gf, wf, cf, actf, u, nf, ff⟩ hu hcond
    simp only at hu hcond ⊢
    subst hu
    rw [toggleUnitsTDEE, if_pos hcond]
    exact ⟨rfl, rfl⟩
  · rintro ⟨af, gf, wf, cf, actf, u, nf, ff⟩ hu hcond
    simp only at hu hcond ⊢
    subst hu
    rw [toggleUnitsTDEE, if_neg hcond]
    exact ⟨rfl, rfl⟩

/-- Witness for C5 amended: a metric to imperial toggle clearing the cm
field, and an imperial to metric toggle with a positive feet component
clearing both imperial fields. -/
theorem claim5_witness :
    (toggleUnits ⟨some 70, some 175, none, none, .metric⟩).heightCm = none ∧
    (toggleUnits ⟨some 154, none, some 5, some 9, .imperial⟩).heightFt = none ∧
    (toggleUnits ⟨some 154, none, some 5, some 9, .imperial⟩).heightIn = none := by
  refine ⟨claim5_amended.1 ⟨some 70, some 175, none, none, .metric⟩ rfl, ?_, ?_⟩
  · exact (claim5_amended.2.1 ⟨some 154, none, some 5, some 9, .imperial⟩ rfl
      (Or.inl (by norm_num))).1
  · exact (claim5_amended.2.1 ⟨some 154, none, some 5, some 9, .imperial⟩ rfl
      (Or.inl (by norm_num))).2

/-- C6 counterexample: the string consisting of a single dot matches the
accepted numeric pattern, and entering it changes the stored cell to NaN,
so a stored raw field is not always absent or a finite number. -/
theorem claim6_counterexample :
    numericPattern ((".") : String).data = true ∧
    handleInputChange (.num 5) (".") = .nan ∧
    JValue.nan ≠ JValue.empty ∧
    JValue.nan ≠ JValue.num 5 := by
  refine ⟨by decide, ?_, by decide, ?_⟩
  · rw [handleInputChange, if_neg (by decide), if_pos (by decide)]
    decide
  · intro h
    cases h

/-- C6 amended: a string is accepted only when it is empty or matches the
numeric pattern and anything else is rejected with no state change; every
finite number produced by the parse of an accepted string is non-negative;
but the accepted string consisting of a single dot is stored as NaN, so
the no-NaN part of the invariant fails (see the counterexample). -/
theorem claim6_amended :
    (∀ (cur : JValue) (v : String), ¬(v = "" ∨ numericPattern v.data = true) →
      handleInputChange cur v = cur) ∧
    (∀ (v : String) (q : ℚ), parseNumber v.data = .num q → 0 ≤ q) ∧
    (∀ cur : JValue, handleInputChange cur (".") = .nan) := by
  refine ⟨?_, ?_, ?_⟩
  · intro cur v hv
    push_neg at hv
    rw [handleInputChange, if_neg hv.1, if_neg (by simp [hv.2])]
  · intro v q h
    rw [parseNumber] at h
    by_cases hc : (v.data.takeWhile Char.isDigit).isEmpty &&
        (match v.data.dropWhile Char.isDigit with
          | c :: r => if c = '.' then r else []
          | [] => []).isEmpty
    · rw [if_pos hc] at h
      cases h
    · rw [if_neg hc] at h
      obtain rfl : _ = q := congrArg (fun j => match j with | JValue.num a => a | _ => 0) h
      positivity
  · intro cur
    rw [handleInputChange, if_neg (by decide), if_pos (by decide)]
    decide

/-- Witness for C6 amended: a malformed string is rejected without a state
change, a parsed digit string is non-negative, and the dot string stores
NaN. -/
theorem claim6_witness :
    handleInputChange (.num 3) ("1a2") = .num 3 ∧
    (0 : ℚ) ≤ 7 ∧
    handleInputChange .empty (".") = .nan := by
  have hpf : parseNumber (("7") : String).data = .num 7 := by
    simp [parseNumber, digitsVal, List.takeWhile, List.dropWhile]
  exact ⟨claim6_amended.1 (.num 3) ("1a2") (by decide),
    claim6_amended.2.1 ("7") 7 hpf, claim6_amended.2.2 .empty⟩

/-- C8 counterexample: toggling a metric height of 30.4 cm to imperial
stores heightIn = 12.0, which violates the claimed invariant
heightIn ∈ [0, 12): the one-decimal rounding of the inches component does
not re-check the 12-inch carry boundary. -/
theorem claim8_counterexample :
    (toggleUnits ⟨none, some (304/10), none, none, .metric⟩).heightIn = some 12 ∧
    ¬((12 : ℚ) < 12) := by
  have htr : jtrunc ((304/10 : ℚ) * CM_TO_IN / FT_TO_IN) = 0 := by
    rw [jtrunc, if_pos (by norm_num [CM_TO_IN, FT_TO_IN])]
    exact jfloor_eq (by norm_num [CM_TO_IN, FT_TO_IN]) (by norm_num [CM_TO_IN, FT_TO_IN])
  have hmod : jmod ((304/10 : ℚ) * CM_TO_IN) FT_TO_IN = (304/10 : ℚ) * CM_TO_IN := by
    rw [jmod, htr]
    norm_num
  have hr : jround (jmod ((304/10 : ℚ) * CM_TO_IN) FT_TO_IN * 10) = 120 := by
    rw [hmod]
    exact jround_eq (by norm_num [CM_TO_IN]) (by norm_num [CM_TO_IN])
  have hinch : inchesOfCm (304/10) = 12 := by
    rw [inchesOfCm, hr]
    norm_num
  constructor
  · simp [toggleUnits, hinch]
  · norm_num

/-- C8 amended: the inches value produced by the metric to imperial toggle
conversion always lies in the closed interval [0, 12]; the upper end 12.0
is attained (counterexample at 30.4 cm), so the half-open constraint
heightIn ∈ [0, 12) is not an invariant of the toggle conversion. -/
theorem claim8_amended (s : BMICalculatorState) (hc : ℚ) (hu : s.units = .metric)
    (hcm : s.heightCm = some hc) (h0 : 0 ≤ hc) :
    (toggleUnits s).heightIn = some (inchesOfCm hc) ∧
    0 ≤ inchesOfCm hc ∧ inchesOfCm hc ≤ 12 := by
  have hti : 0 ≤ hc * CM_TO_IN := by
    have : (0 : ℚ) ≤ CM_TO_IN := by norm_num [CM_TO_IN]
    positivity
  have hb : (0 : ℚ) < FT_TO_IN := by norm_num [FT_TO_IN]
  have hm0 : 0 ≤ jmod (hc * CM_TO_IN) FT_TO_IN := jmod_nonneg hti hb
  have hm1 : jmod (hc * CM_TO_IN) FT_TO_IN < FT_TO_IN := jmod_lt hti hb
  have hup : (jround (jmod (hc * CM_TO_IN) FT_TO_IN * 10) : ℚ) ≤
      jmod (hc * CM_TO_IN) FT_TO_IN * 10 + 1/2 := jround_le _
  have hlo : jmod (hc * CM_TO_IN) FT_TO_IN * 10 - 1/2 <
      (jround (jmod (hc * CM_TO_IN) FT_TO_IN * 10) : ℚ) := lt_jround _
  have hle : jround (jmod (hc * CM_TO_IN) FT_TO_IN * 10) ≤ 120 := by
    have h121 : jround (jmod (hc * CM_TO_IN) FT_TO_IN * 10) < 121 := by
      have : (jround (jmod (hc * CM_TO_IN) FT_TO_IN * 10) : ℚ) < 121 := by
        have h12 : FT_TO_IN = (12 : ℚ) := by norm_num [FT_TO_IN]
        have : jmod (hc * CM_TO_IN) FT_TO_IN * 10 < 120 := by
          linarith [hm1, h12]
        linarith
      exact_mod_cast this
    omega
  have hge : 0 ≤ jround (jmod (hc * CM_TO_IN) FT_TO_IN * 10) := by
    have hneg : (-1 : ℤ) < jround (jmod (hc * CM_TO_IN) FT_TO_IN * 10) := by
      have : (-1 : ℚ) < (jround (jmod (hc * CM_TO_IN) FT_TO_IN * 10) : ℚ) := by
        linarith
      exact_mod_cast this
    omega
  refine ⟨?_, ?_, ?_⟩
  · obtain ⟨wf, cf, ff, nf, u⟩ := s
    obtain rfl : u = .metric := hu
    obtain rfl : cf = some hc := hcm
    simp [toggleUnits]
  · rw [inchesOfCm]
    have : (0 : ℚ) ≤ (jround (jmod (hc * CM_TO_IN) FT_TO_IN * 10) : ℚ) := by
      exact_mod_cast hge
    linarith
  · rw [inchesOfCm]
    have : (jround (jmod (hc * CM_TO_IN) FT_TO_IN * 10) : ℚ) ≤ 120 := by
      exact_mod_cast hle
    linarith

/-- Witness for C8 amended at height 175 cm. -/
theorem claim8_witness :
    (toggleUnits ⟨none, some 175, none, none, .metric⟩).heightIn =
      some (inchesOfCm 175) ∧
    0 ≤ inchesOfCm 175 ∧ inchesOfCm 175 ≤ 12 :=
  claim8_amended ⟨none, some 175, none, none, .metric⟩ 175 rfl rfl (by norm_num)

/-- Double conversion of a weight below ten thousand kilograms returns
within 0.1 kg of the original. -/
theorem weight_roundtrip_bound (w : ℚ) (h0 : 0 < w) (h1 : w ≤ 10000) :
    |kgOfLb (lbOfKg w) - w| ≤ 1/10 := by
  simp only [kgOfLb, lbOfKg]
  have hA1 := jround_le (w * KG_TO_LBS * 10)
  have hA2 := lt_jround (w * KG_TO_LBS * 10)
  have hB1 := jround_le ((jround (w * KG_TO_LBS * 10) : ℚ) / 10 * LBS_TO_KG * 10)
  have hB2 := lt_jround ((jround (w * KG_TO_LBS * 10) : ℚ) / 10 * LBS_TO_KG * 10)
  rw [abs_le]
  norm_num [KG_TO_LBS, LBS_TO_KG] at hA1 hA2 hB1 hB2 ⊢
  constructor <;> linarith

/-- After converting a height of at least one centimeter to imperial, at
least one produced component is positive, so the toggle back converts. -/
theorem toggle_branch_pos (h : ℚ) (hh : 1 ≤ h) :
    0 < feetOfCm h ∨ 0 < inchesOfCm h := by
  have hx0 : (0 : ℚ) ≤ h * CM_TO_IN / FT_TO_IN :=
    div_nonneg (mul_nonneg (by linarith) (by norm_num [CM_TO_IN])) (by norm_num [FT_TO_IN])
  have hF0 : 0 ≤ jfloor (h * CM_TO_IN / FT_TO_IN) := by
    rw [jfloor]
    exact Int.le_floor.mpr (by exact_mod_cast hx0)
  rcases lt_or_eq_of_le hF0 with hFpos | hFzero
  · left
    simp only [feetOfCm]
    exact_mod_cast hFpos
  · right
    have hmod : jmod (h * CM_TO_IN) FT_TO_IN = h * CM_TO_IN := by
      rw [jmod_eq_of_nonneg (mul_nonneg (by linarith) (by norm_num [CM_TO_IN]))
        (by norm_num [FT_TO_IN]), ← hFzero]
      norm_num
    simp only [inchesOfCm]
    rw [hmod]
    have hlow := lt_jround (h * CM_TO_IN * 10)
    have harg : (393/100 : ℚ) ≤ h * CM_TO_IN * 10 := by
      rw [show CM_TO_IN = (393701/1000000 : ℚ) from by norm_num [CM_TO_IN]]
      linarith
    linarith

/-- Double conversion of a height between 1 cm and 100000 cm returns within
1 cm of the original. -/
theorem height_roundtrip_bound (h : ℚ) (hh1 : 1 ≤ h) (hh2 : h ≤ 100000) :
    |cmOfFtIn (feetOfCm h) (inchesOfCm h) - h| ≤ 1 := by
  have hx0 : 0 ≤ h * CM_TO_IN := mul_nonneg (by linarith) (by norm_num [CM_TO_IN])
  have hmod : jmod (h * CM_TO_IN) FT_TO_IN =
      h * CM_TO_IN - FT_TO_IN * (jfloor (h * CM_TO_IN / FT_TO_IN) : ℚ) :=
    jmod_eq_of_nonneg hx0 (by norm_num [FT_TO_IN])
  have hF1 := jfloor_le (h * CM_TO_IN / FT_TO_IN)
  have hF2 := lt_jfloor_add_one (h * CM_TO_IN / FT_TO_IN)
  have hI1 := jround_le (jmod (h * CM_TO_IN) FT_TO_IN * 10)
  have hI2 := lt_jround (jmod (h * CM_TO_IN) FT_TO_IN * 10)
  rw [hmod] at hI1 hI2
  simp only [cmOfFtIn, feetOfCm, inchesOfCm]
  rw [hmod]
  have hR1 := jround_le (((jfloor (h * CM_TO_IN / FT_TO_IN) : ℚ) * FT_TO_IN +
    (jround ((h * CM_TO_IN - FT_TO_IN * (jfloor (h * CM_TO_IN / FT_TO_IN) : ℚ)) * 10) : ℚ) / 10) *
    IN_TO_CM)
  have hR2 := lt_jround (((jfloor (h * CM_TO_IN / FT_TO_IN) : ℚ) * FT_TO_IN +
    (jround ((h * CM_TO_IN - FT_TO_IN * (jfloor (h * CM_TO_IN / FT_TO_IN) : ℚ)) * 10) : ℚ) / 10) *
    IN_TO_CM)
  rw [abs_le]
  norm_num [CM_TO_IN, FT_TO_IN, IN_TO_CM] at hF1 hF2 hI1 hI2 hR1 hR2 ⊢
  constructor <;> linarith

/-- C7 counterexample: starting from the positive weight 10000000 kg (and
height 175 cm) in metric mode, toggling to imperial and back yields the
weight 9999980 kg, which is 20 kg away from the original, far beyond the
claimed 0.1 tolerance; the round-trip bound does not hold for every
positive starting weight. -/
theorem claim7_counterexample :
    (toggleUnits (toggleUnits ⟨some 10000000, some 175, none, none, .metric⟩)).weight =
      some 9999980 ∧
    ¬|(9999980 : ℚ) - 10000000| ≤ 1/10 := by
  have e1 : lbOfKg 10000000 = 22046200 := by
    have : jround ((10000000 : ℚ) * KG_TO_LBS * 10) = 220462000 :=
      jround_eq (by norm_num [KG_TO_LBS]) (by norm_num [KG_TO_LBS])
    rw [lbOfKg, this]
    norm_num
  have e2 : feetOfCm 175 = 5 := by
    have : jfloor ((175 : ℚ) * CM_TO_IN / FT_TO_IN) = 5 :=
      jfloor_eq (by norm_num [CM_TO_IN, FT_TO_IN]) (by norm_num [CM_TO_IN, FT_TO_IN])
    rw [feetOfCm, this]
    norm_num
  have htr : jtrunc ((175 : ℚ) * CM_TO_IN / FT_TO_IN) = 5 := by
    rw [jtrunc, if_pos (by norm_num [CM_TO_IN, FT_TO_IN])]
    exact jfloor_eq (by norm_num [CM_TO_IN, FT_TO_IN]) (by norm_num [CM_TO_IN, FT_TO_IN])
  have e3 : inchesOfCm 175 = 89/10 := by
    have hmod : jmod ((175 : ℚ) * CM_TO_IN) FT_TO_IN = 175 * CM_TO_IN - 60 := by
      rw [jmod, htr]
      norm_num [FT_TO_IN]
    have hr : jround ((175 * CM_TO_IN - 60) * 10) = 89 :=
      jround_eq (by norm_num [CM_TO_IN]) (by norm_num [CM_TO_IN])
    rw [inchesOfCm, hmod, hr]
    norm_num
  have e4 : kgOfLb 22046200 = 9999980 := by
    have : jround ((22046200 : ℚ) * LBS_TO_KG * 10) = 99999800 :=
      jround_eq (by norm_num [LBS_TO_KG]) (by norm_num [LBS_TO_KG])
    rw [kgOfLb, this]
    norm_num
  have t1 : toggleUnits ⟨some 10000000, some 175, none, none, .metric⟩ =
      ⟨some 22046200, none, some 5, some (89/10), .imperial⟩ := by
    simp [toggleUnits, e1, e2, e3]
  constructor
  · rw [t1, toggleUnits]
    simp only [Option.getD_some, Option.map_some]
    rw [if_pos (Or.inl (by norm_num))]
    simp [e4]
  · rw [show (9999980 : ℚ) - 10000000 = -20 by norm_num, abs_neg,
      abs_of_nonneg (by norm_num : (0 : ℚ) ≤ 20)]
    norm_num

/-- C7 amended: for a starting weight in (0, 10000] kg and a starting
height in [1, 100000] cm, toggling metric to imperial and back reproduces
the weight within 0.1 kg and the height within 1 cm; very large values
violate the claimed tolerances because the conversion factors are not
exact inverses (see the counterexample). -/
theorem claim7_roundtrip_amended (w h : ℚ) (f0 i0 : Option ℚ)
    (hw0 : 0 < w) (hw1 : w ≤ 10000) (hh1 : 1 ≤ h) (hh2 : h ≤ 100000) :
    toggleUnits (toggleUnits ⟨some w, some h, f0, i0, .metric⟩) =
      ⟨some (kgOfLb (lbOfKg w)), some (cmOfFtIn (feetOfCm h) (inchesOfCm h)),
        none, none, .metric⟩ ∧
    |kgOfLb (lbOfKg w) - w| ≤ 1/10 ∧
    |cmOfFtIn (feetOfCm h) (inchesOfCm h) - h| ≤ 1 := by
  refine ⟨?_, weight_roundtrip_bound w hw0 hw1, height_roundtrip_bound h hh1 hh2⟩
  have t1 : toggleUnits ⟨some w, some h, f0, i0, .metric⟩ =
      ⟨some (lbOfKg w), none, some (feetOfCm h), some (inchesOfCm h), .imperial⟩ := by
    simp [toggleUnits]
  rw [t1, toggleUnits]
  simp only [Option.getD_some, Option.map_some]
  rw [if_pos (toggle_branch_pos h hh1)]
  rfl

/-- Witness for C7 amended at 70 kg and 175 cm. -/
theorem claim7_witness :
    toggleUnits (toggleUnits ⟨some 70, some 175, none, none, .metric⟩) =
      ⟨some (kgOfLb (lbOfKg 70)), some (cmOfFtIn (feetOfCm 175) (inchesOfCm 175)),
        none, none, .metric⟩ ∧
    |kgOfLb (lbOfKg 70) - 70| ≤ 1/10 ∧
    |cmOfFtIn (feetOfCm 175) (inchesOfCm 175) - 175| ≤ 1 :=
  claim7_roundtrip_amended 70 175 none none (by norm_num) (by norm_num)
    (by norm_num) (by norm_num)

/-- C9: for every raw input state of either instance, saving it to the
storage slot and loading it back reproduces every field exactly (weight,
heightCm, heightFt, heightIn and unitSystem; for the TDEE instance also
age, gender and activityLevel). -/
theorem claim9_persistence_roundtrip (sb : BMICalculatorState)
    (st : FitnessCalculatorState) :
    loadBMIState (some (saveBMIState sb)) = sb ∧
    loadState (some (saveState st)) = st := by
  constructor
  · obtain ⟨wf, cf, ff, nf, u⟩ := sb
    cases u <;> simp [loadBMIState, saveBMIState, unitSystemString]
  · obtain ⟨af, gf, wf, cf, actf, u, nf, ff⟩ := st
    cases u <;> simp [loadState, saveState, unitSystemString]

/-- C10: the TDEE load path restores a present gender or activity string
unchanged even outside the enums; any gender other than the exact string
male selects the female BMR formula; and an activity level outside the
five levels makes the factor lookup undefined, producing the NaN result
rather than an absent one. -/
theorem claim10_invalid_enum (a w h : ℚ) (g act : String) (p : StoredFitnessState)
    (gs asv : String) (hpg : p.gender = some gs) (hpa : p.activityLevel = some asv)
    (hg : g ≠ "male")
    (hact : act ≠ "sedentary" ∧ act ≠ "light" ∧ act ≠ "moderate" ∧
      act ≠ "active" ∧ act ≠ "extra") :
    (loadState (some p)).gender = gs ∧
    (loadState (some p)).activityLevel = asv ∧
    activityFactors act = none ∧
    (∀ (fv : ℚ) (lv : String), activityFactors lv = some fv →
      calculateTDEE (some a) (some w) (some h) g lv =
        .val (jround ((10 * w + 6.25 * h - 5 * a - 161) * fv))) ∧
    calculateTDEE (some a) (some w) (some h) g act = .nan ∧
    TdeeResult.nan ≠ TdeeResult.absent := by
  have hfact : activityFactors act = none := by
    rw [activityFactors, if_neg hact.1, if_neg hact.2.1, if_neg hact.2.2.1,
      if_neg hact.2.2.2.1, if_neg hact.2.2.2.2]
  refine ⟨by simp [loadState, hpg], by simp [loadState, hpa], hfact, ?_, ?_, by simp⟩
  · intro fv lv hl
    simp [calculateTDEE, hl, hg]
  · simp [calculateTDEE, hfact]

/-- Witness for C10: a stored record with gender Male (capitalized, so not
the exact enum string) and activity level hello is restored unchanged, the
unknown activity level has no factor, the capitalized gender selects the
female formula, and the unknown level produces NaN. -/
theorem claim10_witness :
    (loadState (some ⟨some (some 30), some ("Male"), some (some 70), some (some 175),
      some ("hello"), some ("metric"), some none, some none⟩)).gender = "Male" ∧
    (loadState (some ⟨some (some 30), some ("Male"), some (some 70), some (some 175),
      some ("hello"), some ("metric"), some none, some none⟩)).activityLevel = "hello" ∧
    activityFactors ("hello") = none ∧
    calculateTDEE (some 30) (some 70) (some 175) ("Male") ("sedentary") =
      .val (jround ((10 * 70 + 6.25 * 175 - 5 * 30 - 161) * 1.2)) ∧
    calculateTDEE (some 30) (some 70) (some 175) ("Male") ("hello") = .nan := by
  have h := claim10_invalid_enum 30 70 175 ("Male") ("hello")
    ⟨some (some 30), some ("Male"), some (some 70), some (some 175),
      some ("hello"), some ("metric"), some none, some none⟩
    ("Male") ("hello") rfl rfl (by decide)
    ⟨by decide, by decide, by decide, by decide, by decide⟩
  exact ⟨h.1, h.2.1, h.2.2.1,
    h.2.2.2.1 1.2 ("sedentary") (by simp [activityFactors]), h.2.2.2.2.1⟩

end FitnessCalc
